import Mathlib

/-!
Shallow embedding of the NekoTools editor extension (src/src/extension.ts).

The configuration store is modelled as an association list of key/value
pairs, matching the injected key-value service abstraction: get returns the
stored value when the key is present with the right type, and the per-call
default otherwise.  Each command dispatcher is a pure function from the
configuration store and a host environment (context reference, active
editor, filesystem stat result, platform, user dialog selection) to the
list of observable effects it performs, in order.  External host services
(the path module's dirname, the stat query result, the spawn callback
outcome) are fields of the environment.
-/

namespace NekoTools

/-- A configuration value stored by the host: boolean or string. -/
inductive CfgValue where
  | bool (b : Bool)
  | str (s : String)
deriving DecidableEq, Repr

/-- The host configuration store for the extension's namespace. -/
structure Config where
  entries : List (String × CfgValue)
deriving DecidableEq, Repr

def Config.lookup (c : Config) (key : String) : Option CfgValue :=
  c.entries.lookup key

/-- config.get of a boolean key with a per-call default. -/
def Config.getBool (c : Config) (key : String) (dflt : Bool) : Bool :=
  match c.lookup key with
  | some (CfgValue.bool b) => b
  | _ => dflt

/-- config.get of a string key with a per-call default. -/
def Config.getStr (c : Config) (key : String) (dflt : String) : String :=
  match c.lookup key with
  | some (CfgValue.str s) => s
  | _ => dflt

/-- config.update: write a value at a key (global scope). -/
def Config.update (c : Config) (key : String) (v : CfgValue) : Config :=
  ⟨(key, v) :: c.entries⟩

/-- SettingItem interface: type field is 'boolean' or 'enum'. -/
inductive SettingType where
  | boolean
  | enum
deriving DecidableEq, Repr

/-- SettingItem: one entry of the settings view.  The source's value field
is `any`; all four declared settings are boolean-valued. -/
structure SettingItem where
  label : String
  key : String
  type : SettingType
  value : Bool
  description : String
  options : Option (List String)
deriving DecidableEq, Repr

/-- NekoToolsSettingsProvider.getSettings: the fixed list of the four
declared settings, values read fresh from the store. -/
def getSettings (config : Config) : List SettingItem :=
  [ ⟨"📄 获取文件路径", "features.getPathEnabled", SettingType.boolean,
      config.getBool "features.getPathEnabled" true,
      "启用或禁用获取文件路径功能", none⟩,
    ⟨"🖥️ 外部终端打开", "features.openTerminalEnabled", SettingType.boolean,
      config.getBool "features.openTerminalEnabled" true,
      "启用或禁用在外部终端中打开功能", none⟩,
    ⟨"🎨 显示图标", "path.showIcons", SettingType.boolean,
      config.getBool "path.showIcons" true,
      "在路径显示中显示文件/文件夹图标", none⟩,
    ⟨"📋 自动复制", "path.autoClipboard", SettingType.boolean,
      config.getBool "path.autoClipboard" false,
      "获取路径时自动复制到剪贴板", none⟩ ]

/-- An observable effect of a command invocation, in order of occurrence. -/
inductive Effect where
  | warn (msg : String)
  | info (msg : String)
  | infoWithAction (msg : String) (action : String)
  | error (msg : String)
  | clipboardWrite (text : String)
  | statQuery (path : String)
  | execCommand (cmd : String)
  | refresh
deriving DecidableEq, Repr

/-- nekotools.toggleFeature: read the boolean at the key (default true),
write the negation back, refresh the view, show a confirmation. -/
def toggleFeature (config : Config) (configKey : String) : Config × List Effect :=
  let currentValue := config.getBool configKey true
  ( config.update configKey (CfgValue.bool (!currentValue)),
    [ Effect.refresh,
      Effect.info ("功能 " ++ configKey ++ " 已" ++
        (if !currentValue then "启用" else "禁用")) ] )

/-- A host uri; only its filesystem path is consumed. -/
structure Uri where
  fsPath : String
deriving DecidableEq, Repr

/-- vscode FileStat: the type field is a bit flag set. -/
structure FileStat where
  type : Nat
deriving DecidableEq, Repr

/-- vscode.FileType.Directory flag bit. -/
def FileType.Directory : Nat := 2

/-- Host environment of a nekotools.getCurrentFilePath invocation. -/
structure PathCmdEnv where
  uri : Option Uri
  activeTextEditor : Option Uri
  statResult : Except String FileStat
  userSelection : Option String
deriving Repr

/-- nekotools.getCurrentFilePath: the path command dispatcher.  Returns
the ordered list of effects the invocation performs.  A rejected stat in
the explicit-reference branch has no handler in the source, so nothing
further happens there. -/
def getCurrentFilePath (config : Config) (env : PathCmdEnv) : List Effect :=
  let isEnabled := config.getBool "features.getPathEnabled" false
  if !isEnabled then
    [Effect.warn "获取文件路径功能已禁用，请在NekoTools设置中启用"]
  else
    let showIcons := config.getBool "path.showIcons" true
    let autoClipboard := config.getBool "path.autoClipboard" true
    match env.uri with
    | some uri =>
      let filePath := uri.fsPath
      Effect.statQuery filePath ::
        (match env.statResult with
         | Except.error _ => []
         | Except.ok stat =>
           let isDir := stat.type &&& FileType.Directory != 0
           let displayMessage :=
             if isDir then
               if showIcons then "📁 文件夹路径: " ++ filePath
               else "文件夹路径: " ++ filePath
             else
               if showIcons then "📄 文件路径: " ++ filePath
               else "文件路径: " ++ filePath
           if autoClipboard then
             [ Effect.clipboardWrite filePath,
               Effect.info (displayMessage ++ " (已复制到剪贴板)") ]
           else
             Effect.infoWithAction displayMessage "复制路径" ::
               (if env.userSelection = some "复制路径" then
                  [ Effect.clipboardWrite filePath,
                    Effect.info "路径已复制到剪贴板！" ]
                else []))
    | none =>
      match env.activeTextEditor with
      | some doc =>
        let filePath := doc.fsPath
        let displayMessage :=
          if showIcons then "📄 当前文件路径: " ++ filePath
          else "当前文件路径: " ++ filePath
        if autoClipboard then
          [ Effect.clipboardWrite filePath,
            Effect.info (displayMessage ++ " (已复制到剪贴板)") ]
        else
          Effect.infoWithAction displayMessage "复制路径" ::
            (if env.userSelection = some "复制路径" then
               [ Effect.clipboardWrite filePath,
                 Effect.info "路径已复制到剪贴板！" ]
             else [])
      | none => [Effect.warn "没有打开的文件或选中的文件夹"]

/-- ECMAScript GetSubstitution for a string pattern (no capture groups):
expand the special replacement patterns in repl, where a dollar sign
followed by a second dollar sign yields a dollar sign, followed by an
ampersand yields the matched substring, followed by a grave accent
(character 96) yields the text before the match, followed by an
apostrophe (character 39) yields the text after the match; any other
dollar sign, digits included since there are no capture groups, stays
verbatim. -/
def getSubstitution (matched before after : List Char) : List Char → List Char
  | [] => []
  | c :: rest =>
    if c = '$' then
      match rest with
      | [] => [c]
      | d :: rest2 =>
        if d = '$' then d :: getSubstitution matched before after rest2
        else if d = '&' then matched ++ getSubstitution matched before after rest2
        else if d = Char.ofNat 96 then before ++ getSubstitution matched before after rest2
        else if d = Char.ofNat 39 then after ++ getSubstitution matched before after rest2
        else c :: d :: getSubstitution matched before after rest2
    else c :: getSubstitution matched before after rest

/-- Scan for the first occurrence of pat, accumulating the text already
passed (the before-context of GetSubstitution); at the first match, emit
the expanded replacement followed by the rest of the subject unchanged. -/
def replaceFirstAux (pat repl : List Char) : List Char → List Char → List Char
  | _, [] => []
  | before, c :: rest =>
    if pat.isPrefixOf (c :: rest) then
      getSubstitution pat before ((c :: rest).drop pat.length) repl ++
        (c :: rest).drop pat.length
    else c :: replaceFirstAux pat repl (before ++ [c]) rest

/-- JavaScript String.replace with a string pattern: substitutes only the
first occurrence, expanding dollar replacement patterns in the
replacement; an empty pattern matches at position zero. -/
def replaceFirst (s pat repl : String) : String :=
  if pat.data = [] then ⟨getSubstitution [] [] s.data repl.data ++ s.data⟩
  else ⟨replaceFirstAux pat.data repl.data [] s.data⟩

/-- The platform- and preference-dependent terminal command line, built
from the configuration and the resolved terminal working directory.
Returns none exactly when the custom template is selected but empty. -/
def buildTerminalCommand (config : Config) (platform : String)
    (terminalPath : String) : Option String :=
  if platform = "win32" then
    let windowsTerminal := config.getStr "terminal.windows" "wt"
    if windowsTerminal = "wt" then
      some ("wt -d \"" ++ terminalPath ++ "\"")
    else if windowsTerminal = "cmd" then
      some ("start cmd /k \"cd /d \"" ++ terminalPath ++ "\"\"")
    else if windowsTerminal = "powershell" then
      some ("start powershell -NoExit -Command \"Set-Location \x27" ++
        terminalPath ++ "\x27\"")
    else
      some ("wt -d \"" ++ terminalPath ++ "\" || start cmd /k \"cd /d \"" ++
        terminalPath ++ "\"\"")
  else if platform = "darwin" then
    some ("open -a Terminal \"" ++ terminalPath ++ "\"")
  else
    let linuxTerminal := config.getStr "terminal.linux" "gnome-terminal"
    let customCommand := config.getStr "terminal.customCommand" ""
    if linuxTerminal = "gnome-terminal" then
      some ("gnome-terminal --working-directory=\"" ++ terminalPath ++ "\"")
    else if linuxTerminal = "xterm" then
      some ("xterm -e \"cd \x27" ++ terminalPath ++ "\x27; bash\"")
    else if linuxTerminal = "konsole" then
      some ("konsole --workdir \"" ++ terminalPath ++ "\"")
    else if linuxTerminal = "custom" then
      if customCommand ≠ "" then
        some (replaceFirst customCommand "\x7bpath\x7d" terminalPath)
      else none
    else
      some ("gnome-terminal --working-directory=\"" ++ terminalPath ++
        "\" || xterm -e \"cd \x27" ++ terminalPath ++
        "\x27; bash\" || konsole --workdir \"" ++ terminalPath ++ "\"")

/-- Host environment of a nekotools.openInExternalTerminal invocation.
dirname is the host path module's dirname, an external service. -/
structure TermCmdEnv where
  uri : Option Uri
  activeTextEditor : Option Uri
  statResult : Except String FileStat
  platform : String
  dirname : String → String
  execError : Option String

/-- Target path resolution shared wording of both dispatchers: explicit
context reference first, else the active editor's document, else none. -/
def resolveTargetPath (env : TermCmdEnv) : Option String :=
  match env.uri with
  | some uri => some uri.fsPath
  | none =>
    match env.activeTextEditor with
    | some doc => some doc.fsPath
    | none => none

/-- nekotools.openInExternalTerminal: the terminal command dispatcher.
Returns the ordered list of effects the invocation performs. -/
def openInExternalTerminal (config : Config) (env : TermCmdEnv) : List Effect :=
  let isEnabled := config.getBool "features.openTerminalEnabled" false
  if !isEnabled then
    [Effect.warn "外部终端打开功能已禁用，请在NekoTools设置中启用"]
  else
    match resolveTargetPath env with
    | none => [Effect.warn "没有选中的文件或文件夹"]
    | some targetPath =>
      Effect.statQuery targetPath ::
        (match env.statResult with
         | Except.error _ => [Effect.error "无法访问指定的路径"]
         | Except.ok stat =>
           let terminalPath :=
             if stat.type &&& FileType.Directory = 0 then env.dirname targetPath
             else targetPath
           match buildTerminalCommand config env.platform terminalPath with
           | none => [Effect.error "请在设置中配置自定义终端命令"]
           | some command =>
             Effect.execCommand command ::
               (match env.execError with
                | some e => [Effect.error ("无法打开外部终端: " ++ e)]
                | none => [Effect.info ("已在外部终端中打开: " ++ terminalPath)]))

/-! Concrete stores and environments used by evaluations and witnesses. -/

def emptyConfig : Config := ⟨[]⟩

def cfgPathEnabled : Config := ⟨[("features.getPathEnabled", CfgValue.bool true)]⟩

def envFileCtx : PathCmdEnv :=
  ⟨some ⟨"/home/user/a.txt"⟩, none, Except.ok ⟨1⟩, none⟩

def termEnvFileCtx : TermCmdEnv :=
  ⟨some ⟨"/home/user/a.txt"⟩, none, Except.ok ⟨1⟩, "linux", fun s => s, none⟩

theorem Config.getBool_update_self (c : Config) (k : String) (b d : Bool) :
    (c.update k (CfgValue.bool b)).getBool k d = b := by
  simp [Config.update, Config.getBool, Config.lookup, List.lookup]

/-- C1: with both feature keys absent from the store, the command handlers
read them with per-call default false, so both commands show the disabled
warning instead of proceeding past the feature-enabled check; the claimed
default-true behaviour does not hold on the handlers as written. -/
theorem absent_feature_keys_yield_disabled_warning :
    getCurrentFilePath emptyConfig envFileCtx =
      [Effect.warn "获取文件路径功能已禁用，请在NekoTools设置中启用"] ∧
    openInExternalTerminal emptyConfig termEnvFileCtx =
      [Effect.warn "外部终端打开功能已禁用，请在NekoTools设置中启用"] :=
  ⟨rfl, rfl⟩

/-- C2: with path.autoClipboard absent from the store, the path handler
reads it with per-call default true, so a valid explicit-context
invocation writes the clipboard automatically and shows a plain
confirmation; it never offers the copy choice that the claimed default
false requires. -/
theorem absent_autoClipboard_copies_automatically :
    getCurrentFilePath cfgPathEnabled envFileCtx =
      [ Effect.statQuery "/home/user/a.txt",
        Effect.clipboardWrite "/home/user/a.txt",
        Effect.info "📄 文件路径: /home/user/a.txt (已复制到剪贴板)" ] :=
  rfl

/-- C3: for every store state, getSettings returns exactly the four
declared settings in fixed declaration order, each value read from the
store at its key, defaulting to true, true, true, false when absent. -/
theorem getSettings_fixed_order_values (config : Config) :
    (getSettings config).map SettingItem.key =
      ["features.getPathEnabled", "features.openTerminalEnabled",
       "path.showIcons", "path.autoClipboard"] ∧
    (getSettings config).map SettingItem.value =
      [config.getBool "features.getPathEnabled" true,
       config.getBool "features.openTerminalEnabled" true,
       config.getBool "path.showIcons" true,
       config.getBool "path.autoClipboard" false] :=
  ⟨rfl, rfl⟩

/-- C4: for a key absent or holding a boolean value, toggleFeature negates
the value observed at the key (default true when absent), and two
consecutive calls restore the original observed value. -/
theorem toggleFeature_involution (config : Config) (key : String)
    (h : config.lookup key = none ∨
      ∃ b, config.lookup key = some (CfgValue.bool b)) :
    (toggleFeature config key).1.getBool key true =
      !(config.getBool key true) ∧
    ((toggleFeature (toggleFeature config key).1 key).1).getBool key true =
      config.getBool key true := by
  constructor
  · simp [toggleFeature, Config.getBool_update_self]
  · simp [toggleFeature, Config.getBool_update_self]

/-- C4 witness: the involution at a concrete empty store and key. -/
theorem toggleFeature_involution_witness :
    (Config.lookup ⟨[]⟩ "path.showIcons" = none ∨
      ∃ b, Config.lookup ⟨[]⟩ "path.showIcons" = some (CfgValue.bool b)) ∧
    ((toggleFeature (⟨[]⟩ : Config) "path.showIcons").1.getBool
        "path.showIcons" true =
      !((⟨[]⟩ : Config).getBool "path.showIcons" true) ∧
    ((toggleFeature (toggleFeature (⟨[]⟩ : Config) "path.showIcons").1
        "path.showIcons").1).getBool "path.showIcons" true =
      (⟨[]⟩ : Config).getBool "path.showIcons" true) :=
  ⟨Or.inl rfl, toggleFeature_involution ⟨[]⟩ "path.showIcons" (Or.inl rfl)⟩

/-- C5: with features.getPathEnabled stored false, the path command in any
context produces exactly the disabled warning: no clipboard write, no stat
query, no other effect. -/
theorem getPath_disabled_short_circuits (config : Config) (env : PathCmdEnv)
    (h : config.lookup "features.getPathEnabled" = some (CfgValue.bool false)) :
    getCurrentFilePath config env =
      [Effect.warn "获取文件路径功能已禁用，请在NekoTools设置中启用"] := by
  have hb : config.getBool "features.getPathEnabled" false = false := by
    simp [Config.getBool, h]
  simp [getCurrentFilePath, hb]

/-- C5 witness: a concrete store with the flag false and a file context. -/
theorem getPath_disabled_short_circuits_witness :
    Config.lookup ⟨[("features.getPathEnabled", CfgValue.bool false)]⟩
        "features.getPathEnabled" = some (CfgValue.bool false) ∧
    getCurrentFilePath ⟨[("features.getPathEnabled", CfgValue.bool false)]⟩
        envFileCtx =
      [Effect.warn "获取文件路径功能已禁用，请在NekoTools设置中启用"] :=
  ⟨rfl, getPath_disabled_short_circuits _ envFileCtx rfl⟩

theorem buildTerminalCommand_win32_cmd (config : Config) (p : String)
    (hterm : config.getStr "terminal.windows" "wt" = "cmd") :
    buildTerminalCommand config "win32" p =
      some ("start cmd /k \"cd /d \"" ++ p ++ "\"\"") := by
  simp [buildTerminalCommand, hterm]

theorem buildTerminalCommand_custom_empty (config : Config) (p : String)
    (hterm : config.getStr "terminal.linux" "gnome-terminal" = "custom")
    (hcustom : config.getStr "terminal.customCommand" "" = "") :
    buildTerminalCommand config "linux" p = none := by
  simp [buildTerminalCommand, hterm, hcustom]

/-- C6: on win32 with terminal.windows set to cmd and a target the stat
classifies as a file, the built command is exactly
start cmd /k "cd /d "dirname-of-target"", and the dispatcher spawns it. -/
theorem win32_cmd_file_builds_cd_parent (config : Config) (env : TermCmdEnv)
    (tp : String) (stat : FileStat)
    (henabled : config.getBool "features.openTerminalEnabled" false = true)
    (htarget : resolveTargetPath env = some tp)
    (hstat : env.statResult = Except.ok stat)
    (hfile : stat.type &&& FileType.Directory = 0)
    (hplat : env.platform = "win32")
    (hterm : config.getStr "terminal.windows" "wt" = "cmd") :
    buildTerminalCommand config env.platform (env.dirname tp) =
      some ("start cmd /k \"cd /d \"" ++ env.dirname tp ++ "\"\"") ∧
    Effect.execCommand ("start cmd /k \"cd /d \"" ++ env.dirname tp ++ "\"\"")
      ∈ openInExternalTerminal config env := by
  have hbuild : ∀ q, buildTerminalCommand config "win32" q =
      some ("start cmd /k \"cd /d \"" ++ q ++ "\"\"") :=
    fun q => buildTerminalCommand_win32_cmd config q hterm
  constructor
  · rw [hplat]; exact hbuild _
  · simp [openInExternalTerminal, htarget, hstat, hfile, henabled, hplat, hbuild]

def cfgWinCmd : Config :=
  ⟨[("features.openTerminalEnabled", CfgValue.bool true),
    ("terminal.windows", CfgValue.str "cmd")]⟩

def envWinFile : TermCmdEnv :=
  ⟨some ⟨"C:\\proj\\a.txt"⟩, none, Except.ok ⟨1⟩, "win32",
    fun s => if s = "C:\\proj\\a.txt" then "C:\\proj" else s, none⟩

/-- C6 witness: concrete win32 store and file context. -/
theorem win32_cmd_file_builds_cd_parent_witness :
    (cfgWinCmd.getBool "features.openTerminalEnabled" false = true ∧
     resolveTargetPath envWinFile = some "C:\\proj\\a.txt" ∧
     envWinFile.statResult = Except.ok ⟨1⟩ ∧
     (1 : Nat) &&& FileType.Directory = 0 ∧
     envWinFile.platform = "win32" ∧
     cfgWinCmd.getStr "terminal.windows" "wt" = "cmd") ∧
    (buildTerminalCommand cfgWinCmd envWinFile.platform
        (envWinFile.dirname "C:\\proj\\a.txt") =
      some ("start cmd /k \"cd /d \"" ++
        envWinFile.dirname "C:\\proj\\a.txt" ++ "\"\"") ∧
     Effect.execCommand ("start cmd /k \"cd /d \"" ++
        envWinFile.dirname "C:\\proj\\a.txt" ++ "\"\"")
       ∈ openInExternalTerminal cfgWinCmd envWinFile) :=
  ⟨⟨rfl, rfl, rfl, by decide, rfl, rfl⟩,
   win32_cmd_file_builds_cd_parent cfgWinCmd envWinFile "C:\\proj\\a.txt" ⟨1⟩
     rfl rfl rfl (by decide) rfl rfl⟩

/-- C7: on Linux with terminal.linux set to custom and an empty custom
template, an enabled invocation with a resolvable target performs only the
stat query and the missing-configuration error; no command is spawned. -/
theorem linux_custom_empty_template_errors (config : Config) (env : TermCmdEnv)
    (tp : String) (stat : FileStat)
    (henabled : config.getBool "features.openTerminalEnabled" false = true)
    (htarget : resolveTargetPath env = some tp)
    (hstat : env.statResult = Except.ok stat)
    (hplat : env.platform = "linux")
    (hterm : config.getStr "terminal.linux" "gnome-terminal" = "custom")
    (hcustom : config.getStr "terminal.customCommand" "" = "") :
    openInExternalTerminal config env =
      [Effect.statQuery tp, Effect.error "请在设置中配置自定义终端命令"] := by
  have hbuild : ∀ q, buildTerminalCommand config "linux" q = none :=
    fun q => buildTerminalCommand_custom_empty config q hterm hcustom
  simp [openInExternalTerminal, htarget, hstat, hplat, henabled, hbuild]

def cfgLinuxCustomEmpty : Config :=
  ⟨[("features.openTerminalEnabled", CfgValue.bool true),
    ("terminal.linux", CfgValue.str "custom"),
    ("terminal.customCommand", CfgValue.str "")]⟩

def envLinuxDir : TermCmdEnv :=
  ⟨some ⟨"/home/user/proj"⟩, none, Except.ok ⟨2⟩, "linux", fun s => s, none⟩

/-- C7 witness: concrete Linux store with empty custom template. -/
theorem linux_custom_empty_template_errors_witness :
    (cfgLinuxCustomEmpty.getBool "features.openTerminalEnabled" false = true ∧
     resolveTargetPath envLinuxDir = some "/home/user/proj" ∧
     envLinuxDir.statResult = Except.ok ⟨2⟩ ∧
     envLinuxDir.platform = "linux" ∧
     cfgLinuxCustomEmpty.getStr "terminal.linux" "gnome-terminal" = "custom" ∧
     cfgLinuxCustomEmpty.getStr "terminal.customCommand" "" = "") ∧
    openInExternalTerminal cfgLinuxCustomEmpty envLinuxDir =
      [Effect.statQuery "/home/user/proj",
       Effect.error "请在设置中配置自定义终端命令"] :=
  ⟨⟨rfl, rfl, rfl, rfl, rfl, rfl⟩,
   linux_custom_empty_template_errors cfgLinuxCustomEmpty envLinuxDir
     "/home/user/proj" ⟨2⟩ rfl rfl rfl rfl rfl rfl⟩

/-- C8: in the terminal command, a failing stat on the resolved target
yields exactly the stat query and the inaccessible-path error: no command
is built, nothing is spawned, and no other effect occurs. -/
theorem terminal_stat_failure_aborts (config : Config) (env : TermCmdEnv)
    (tp e : String)
    (henabled : config.getBool "features.openTerminalEnabled" false = true)
    (htarget : resolveTargetPath env = some tp)
    (hstat : env.statResult = Except.error e) :
    openInExternalTerminal config env =
      [Effect.statQuery tp, Effect.error "无法访问指定的路径"] := by
  simp [openInExternalTerminal, htarget, hstat, henabled]

def envStatFail : TermCmdEnv :=
  ⟨some ⟨"/home/user/gone"⟩, none, Except.error "ENOENT", "linux",
    fun s => s, none⟩

/-- C8 witness: concrete failing stat in the terminal dispatcher. -/
theorem terminal_stat_failure_aborts_witness :
    ((⟨[("features.openTerminalEnabled", CfgValue.bool true)]⟩ : Config).getBool
        "features.openTerminalEnabled" false = true ∧
     resolveTargetPath envStatFail = some "/home/user/gone" ∧
     envStatFail.statResult = Except.error "ENOENT") ∧
    openInExternalTerminal ⟨[("features.openTerminalEnabled", CfgValue.bool true)]⟩
        envStatFail =
      [Effect.statQuery "/home/user/gone", Effect.error "无法访问指定的路径"] :=
  ⟨⟨rfl, rfl, rfl⟩,
   terminal_stat_failure_aborts _ envStatFail "/home/user/gone" "ENOENT"
     rfl rfl rfl⟩

/-- C9: with no context reference and an active document present, the path
command performs no filesystem stat query at all, and formats the target
with the file message shape, whatever the stat environment would have
answered (even a directory). -/
theorem palette_fallback_no_stat_file_shape (config : Config)
    (env : PathCmdEnv) (doc : Uri)
    (henabled : config.getBool "features.getPathEnabled" false = true)
    (huri : env.uri = none)
    (heditor : env.activeTextEditor = some doc) :
    (∀ p, Effect.statQuery p ∉ getCurrentFilePath config env) ∧
    getCurrentFilePath config env =
      (if config.getBool "path.autoClipboard" true then
        [Effect.clipboardWrite doc.fsPath,
         Effect.info ((if config.getBool "path.showIcons" true then
             "📄 当前文件路径: " ++ doc.fsPath
           else "当前文件路径: " ++ doc.fsPath) ++ " (已复制到剪贴板)")]
       else
        Effect.infoWithAction (if config.getBool "path.showIcons" true then
            "📄 当前文件路径: " ++ doc.fsPath
          else "当前文件路径: " ++ doc.fsPath) "复制路径" ::
          (if env.userSelection = some "复制路径" then
             [Effect.clipboardWrite doc.fsPath,
              Effect.info "路径已复制到剪贴板！"]
           else [])) := by
  have hmain : getCurrentFilePath config env =
      (if config.getBool "path.autoClipboard" true then
        [Effect.clipboardWrite doc.fsPath,
         Effect.info ((if config.getBool "path.showIcons" true then
             "📄 当前文件路径: " ++ doc.fsPath
           else "当前文件路径: " ++ doc.fsPath) ++ " (已复制到剪贴板)")]
       else
        Effect.infoWithAction (if config.getBool "path.showIcons" true then
            "📄 当前文件路径: " ++ doc.fsPath
          else "当前文件路径: " ++ doc.fsPath) "复制路径" ::
          (if env.userSelection = some "复制路径" then
             [Effect.clipboardWrite doc.fsPath,
              Effect.info "路径已复制到剪贴板！"]
           else [])) := by
    simp [getCurrentFilePath, huri, heditor, henabled]
  refine ⟨?_, hmain⟩
  intro p
  rw [hmain]
  by_cases hauto : config.getBool "path.autoClipboard" true
  · simp [hauto]
  · by_cases hsel : env.userSelection = some "复制路径"
    · simp [hauto, hsel]
    · simp [hauto, hsel]

def envPalette : PathCmdEnv :=
  ⟨none, some ⟨"/home/user/dir"⟩, Except.ok ⟨2⟩, none⟩

/-- C9 witness: a palette invocation whose stat environment describes a
directory; the command still queries nothing and uses the file shape. -/
theorem palette_fallback_no_stat_file_shape_witness :
    (cfgPathEnabled.getBool "features.getPathEnabled" false = true ∧
     envPalette.uri = none ∧
     envPalette.activeTextEditor = some ⟨"/home/user/dir"⟩) ∧
    ((∀ p, Effect.statQuery p ∉ getCurrentFilePath cfgPathEnabled envPalette) ∧
    getCurrentFilePath cfgPathEnabled envPalette =
      (if cfgPathEnabled.getBool "path.autoClipboard" true then
        [Effect.clipboardWrite (Uri.fsPath ⟨"/home/user/dir"⟩),
         Effect.info ((if cfgPathEnabled.getBool "path.showIcons" true then
             "📄 当前文件路径: " ++ Uri.fsPath ⟨"/home/user/dir"⟩
           else "当前文件路径: " ++ Uri.fsPath ⟨"/home/user/dir"⟩) ++
           " (已复制到剪贴板)")]
       else
        Effect.infoWithAction (if cfgPathEnabled.getBool "path.showIcons" true then
            "📄 当前文件路径: " ++ Uri.fsPath ⟨"/home/user/dir"⟩
          else "当前文件路径: " ++ Uri.fsPath ⟨"/home/user/dir"⟩) "复制路径" ::
          (if envPalette.userSelection = some "复制路径" then
             [Effect.clipboardWrite (Uri.fsPath ⟨"/home/user/dir"⟩),
              Effect.info "路径已复制到剪贴板！"]
           else []))) :=
  ⟨⟨rfl, rfl, rfl⟩,
   palette_fallback_no_stat_file_shape cfgPathEnabled envPalette
     ⟨"/home/user/dir"⟩ rfl rfl rfl⟩

theorem getSubstitution_no_dollar (matched before after : List Char) :
    ∀ repl : List Char, ('$' : Char) ∉ repl →
      getSubstitution matched before after repl = repl := by
  intro repl
  induction repl with
  | nil => intro _; rfl
  | cons c rest ih =>
    intro h
    have hc : ¬ c = '$' := fun hcc => h (by rw [hcc]; exact List.mem_cons_self _ _)
    rw [getSubstitution.eq_def]
    simp only [hc, if_false, ite_false]
    rw [ih (fun hm => h (List.mem_cons_of_mem _ hm))]

theorem replaceFirstAux_no_hit (pat repl b : List Char) (hpat : pat ≠ []) :
    ∀ (a acc : List Char),
      (∀ i, i < a.length →
        ¬ pat.isPrefixOf ((a ++ pat ++ b).drop i) = true) →
      replaceFirstAux pat repl acc (a ++ pat ++ b) =
        a ++ getSubstitution pat (acc ++ a) b repl ++ b := by
  intro a
  induction a with
  | nil =>
    intro acc _
    simp only [List.nil_append, List.append_nil]
    cases pat with
    | nil => exact absurd rfl hpat
    | cons c cs =>
      rw [List.cons_append]
      simp only [replaceFirstAux]
      have hpre : (c :: cs).isPrefixOf (c :: (cs ++ b)) = true := by
        rw [← List.cons_append]
        exact List.isPrefixOf_iff_prefix.mpr (List.prefix_append _ _)
      rw [if_pos hpre, ← List.cons_append, List.drop_left]
  | cons c a ih =>
    intro acc hfirst
    have hs : (c :: a) ++ pat ++ b = c :: (a ++ pat ++ b) := by simp
    have h0 : ¬ pat.isPrefixOf (c :: (a ++ pat ++ b)) = true := by
      have h00 := hfirst 0 (Nat.succ_pos _)
      rwa [hs, List.drop_zero] at h00
    have hrest : ∀ i, i < a.length →
        ¬ pat.isPrefixOf ((a ++ pat ++ b).drop i) = true := by
      intro i hi
      have hstep := hfirst (i + 1) (Nat.succ_lt_succ hi)
      rwa [hs, List.drop_succ_cons] at hstep
    rw [hs]
    simp only [replaceFirstAux]
    rw [if_neg h0, ih (acc ++ [c]) hrest]
    simp

theorem replaceFirst_first_occurrence (s pat repl : String) (a b : List Char)
    (hpat : pat.data ≠ [])
    (hsplit : s.data = a ++ pat.data ++ b)
    (hfirst : ∀ i, i < a.length →
      ¬ pat.data.isPrefixOf ((a ++ pat.data ++ b).drop i) = true)
    (hrepl : ('$' : Char) ∉ repl.data) :
    replaceFirst s pat repl = ⟨a ++ repl.data ++ b⟩ := by
  unfold replaceFirst
  rw [if_neg hpat, hsplit,
    replaceFirstAux_no_hit pat.data repl.data b hpat a [] hfirst,
    List.nil_append, getSubstitution_no_dollar pat.data a b repl.data hrepl]

theorem buildTerminalCommand_custom_nonempty (config : Config) (p : String)
    (hterm : config.getStr "terminal.linux" "gnome-terminal" = "custom")
    (hne : config.getStr "terminal.customCommand" "" ≠ "") :
    buildTerminalCommand config "linux" p =
      some (replaceFirst (config.getStr "terminal.customCommand" "")
        "\x7bpath\x7d" p) := by
  simp [buildTerminalCommand, hterm, hne]

def cfgDollarTpl : Config :=
  ⟨[("features.openTerminalEnabled", CfgValue.bool true),
    ("terminal.linux", CfgValue.str "custom"),
    ("terminal.customCommand",
      CfgValue.str "echo \x7bpath\x7d and \x7bpath\x7d")]⟩

def envDollarDir : TermCmdEnv :=
  ⟨some ⟨"$&"⟩, none, Except.ok ⟨2⟩, "linux", fun s => s, none⟩

/-- C10 counterexample: with a resolved directory containing a dollar
replacement pattern, JavaScript replace expands it (here the matched
substring), so the spawned command is not the template with the directory
spliced verbatim into the first placeholder occurrence. -/
theorem custom_template_verbatim_splice_counterexample :
    Effect.execCommand "echo $& and \x7bpath\x7d" ∉
      openInExternalTerminal cfgDollarTpl envDollarDir ∧
    Effect.execCommand "echo \x7bpath\x7d and \x7bpath\x7d" ∈
      openInExternalTerminal cfgDollarTpl envDollarDir := by
  constructor
  · decide
  · decide

/-- C10 amended: on Linux with a custom template whose first placeholder
occurrence is at the boundary given, and a resolved directory free of
dollar signs (so GetSubstitution expands nothing in it), the dispatcher
spawns the template with only that first occurrence replaced by the
directory; the remainder of the template, later placeholder occurrences
included, stays verbatim. -/
theorem custom_template_first_placeholder_only (config : Config)
    (env : TermCmdEnv) (tp : String) (stat : FileStat) (a b : List Char)
    (henabled : config.getBool "features.openTerminalEnabled" false = true)
    (htarget : resolveTargetPath env = some tp)
    (hstat : env.statResult = Except.ok stat)
    (hdir : stat.type &&& FileType.Directory ≠ 0)
    (hplat : env.platform = "linux")
    (hterm : config.getStr "terminal.linux" "gnome-terminal" = "custom")
    (hsplit : (config.getStr "terminal.customCommand" "").data =
      a ++ ("\x7bpath\x7d" : String).data ++ b)
    (hfirst : ∀ i, i < a.length →
      ¬ ("\x7bpath\x7d" : String).data.isPrefixOf
        ((a ++ ("\x7bpath\x7d" : String).data ++ b).drop i) = true)
    (hdollar : ('$' : Char) ∉ tp.data) :
    Effect.execCommand ⟨a ++ tp.data ++ b⟩ ∈
      openInExternalTerminal config env := by
  have hne : config.getStr "terminal.customCommand" "" ≠ "" := by
    intro hcontra
    rw [hcontra] at hsplit
    simp at hsplit
  have hrep : replaceFirst (config.getStr "terminal.customCommand" "")
      "\x7bpath\x7d" tp = ⟨a ++ tp.data ++ b⟩ :=
    replaceFirst_first_occurrence _ _ _ a b (by decide) hsplit hfirst hdollar
  have hbuild : buildTerminalCommand config "linux" tp =
      some ⟨a ++ tp.data ++ b⟩ := by
    rw [buildTerminalCommand_custom_nonempty config tp hterm hne, hrep]
  simp [openInExternalTerminal, htarget, hstat, hdir, henabled, hplat, hbuild]

def cfgLinuxCustomTpl : Config :=
  ⟨[("features.openTerminalEnabled", CfgValue.bool true),
    ("terminal.linux", CfgValue.str "custom"),
    ("terminal.customCommand",
      CfgValue.str "run \x7bpath\x7d && echo \x7bpath\x7d")]⟩

/-- C10 witness: a template with two placeholder occurrences; the spawned
command keeps the second occurrence verbatim. -/
theorem custom_template_first_placeholder_only_witness :
    (cfgLinuxCustomTpl.getBool "features.openTerminalEnabled" false = true ∧
     resolveTargetPath envLinuxDir = some "/home/user/proj" ∧
     envLinuxDir.statResult = Except.ok ⟨2⟩ ∧
     (2 : Nat) &&& FileType.Directory ≠ 0 ∧
     envLinuxDir.platform = "linux" ∧
     cfgLinuxCustomTpl.getStr "terminal.linux" "gnome-terminal" = "custom" ∧
     (cfgLinuxCustomTpl.getStr "terminal.customCommand" "").data =
       ("run " : String).data ++ ("\x7bpath\x7d" : String).data ++
         (" && echo \x7bpath\x7d" : String).data ∧
     (∀ i, i < ("run " : String).data.length →
       ¬ ("\x7bpath\x7d" : String).data.isPrefixOf
         ((("run " : String).data ++ ("\x7bpath\x7d" : String).data ++
           (" && echo \x7bpath\x7d" : String).data).drop i) = true) ∧
     ('$' : Char) ∉ ("/home/user/proj" : String).data) ∧
    Effect.execCommand
        ⟨("run " : String).data ++ ("/home/user/proj" : String).data ++
          (" && echo \x7bpath\x7d" : String).data⟩ ∈
      openInExternalTerminal cfgLinuxCustomTpl envLinuxDir :=
  ⟨⟨rfl, rfl, rfl, by decide, rfl, by decide, by decide, by decide, by decide⟩,
   custom_template_first_placeholder_only cfgLinuxCustomTpl envLinuxDir
     "/home/user/proj" ⟨2⟩ ("run " : String).data
     (" && echo \x7bpath\x7d" : String).data rfl rfl rfl (by decide) rfl
     (by decide) (by decide) (by decide) (by decide)⟩

end NekoTools
